import Mathlib

/-!
Verification of the date-compatibility resolution logic of the PRISM
map application (`useLayers` hook).  Timestamps are modelled as natural
numbers of milliseconds since the Unix epoch; calendar days as natural
day indices.  The hook's reactive effects are modelled as pure functions
from their state inputs to the list of actions (notifications, store
dispatches, history updates) they issue in one synchronous pass.
-/

/-- One queryable calendar day of a layer (`DateItem` in `config/types`).
`displayDate` is a millisecond timestamp. -/
structure DateItem where
  displayDate : Nat
  deriving Repr, DecidableEq

/-- Milliseconds in one calendar day. -/
def msPerDay : Nat := 86400000

/-- Calendar-day index of a timestamp; embeds the JS expression
`new Date(t).toISOString().slice(0, 10)` (the day key used by `countBy`). -/
def dayKey (t : Nat) : Nat := t / msPerDay

/-- Midday-UTC timestamp of a calendar day; embeds
`new Date(dateString).setUTCHours(12, 0, 0, 0)` applied to a day key. -/
def middayUTC (day : Nat) : Nat := day * msPerDay + 43200000

/-- `t.setUTCHours(12, 0, 0, 0)`: normalize a timestamp to midday UTC of its day. -/
def setUTCHoursMidday (t : Nat) : Nat := middayUTC (dayKey t)

/-- A date-supporting map layer as seen by `useLayers`, carrying its resolved
candidate `DateItem`s. -/
structure Layer where
  id : String
  title : String
  dateItems : List DateItem
  deriving Repr, DecidableEq

/-- Modelled from the spec: `getPossibleDatesForLayer` (in `utils/server-utils`,
not part of this snapshot) resolves a layer's candidate `DateItem`s — its own
static dates, the server-provided per-layer entry, or for composite layers the
companion layer's dates.  A `Layer` here carries that resolved list. -/
def getPossibleDatesForLayer (l : Layer) : List DateItem := l.dateItems

/-- Calendar-day keys of one layer's candidate dates. -/
def layerDays (l : Layer) : List Nat :=
  (getPossibleDatesForLayer l).map (fun it => dayKey it.displayDate)

/-- All day keys of all layers, flattened into one multiset
(`.map(getPossibleDatesForLayer).flat().map(dayKey)` in the hook). -/
def flatDays : List Layer → List Nat
  | [] => []
  | l :: ls => layerDays l ++ flatDays ls

/-- First-occurrence deduplication: the key list of the lodash `countBy`
object (JS object keys appear in insertion order). -/
def dedupKeys : List Nat → List Nat
  | [] => []
  | k :: rest => k :: (dedupKeys rest).filter (fun x => x ≠ k)

/-- `selectedLayerDates`: the selectable-dates computation of `useLayers`
(`computeSelectableDates` of the spec).  Counts occurrences of each calendar
day over all date-supporting layers (`countBy`), keeps the days whose count
reaches the number of layers (`pickBy`), and converts the surviving day keys
back to midday-UTC timestamps. -/
def selectedLayerDates (layers : List Layer) : List Nat :=
  if layers.length = 0 then []
  else
    ((dedupKeys (flatDays layers)).filter
      (fun k => layers.length ≤ (flatDays layers).count k)).map middayUTC

/-- Day keys of a single layer are pairwise distinct (no two `DateItem`s of
the layer fall on the same calendar day). -/
def allDistinct : List Nat → Bool
  | [] => true
  | x :: xs => (!xs.contains x) && allDistinct xs

/-- The date parameter of the URL: absent, present but unparseable
(JS `new Date(s)` yields an Invalid Date, so arithmetic on it yields `NaN`),
or present and parsing to a timestamp. -/
inductive UrlDate where
  | absent
  | invalid
  | valid (t : Nat)
  deriving Repr, DecidableEq

/-- `dateInt` of `useLayers`:
`(urlDate ? new Date(urlDate) : new Date()).setUTCHours(12, 0, 0, 0)`.
`none` models the `NaN` produced by an unparseable date string. -/
def dateInt (urlDate : UrlDate) (now : Nat) : Option Nat :=
  match urlDate with
  | .absent => some (setUTCHoursMidday now)
  | .invalid => none
  | .valid t => some (setUTCHoursMidday t)

/-- An observable action issued by one synchronous pass of a `useLayers`
effect: a notification dispatch, a store dispatch, a browser-history update,
or a bare console warning. -/
inductive Act where
  | notify (message : String) (kind : String)
  | updateStartDate (startDate : Nat)
  | updateHistoryDate (date : Nat)
  | addLayerById (id : String)
  | removeLayerById (id : String)
  | removeLayerFromUrl (id : String)
  | warnOnly
  deriving Repr, DecidableEq

/-- `true` exactly on notification-dispatch actions. -/
def Act.isNotify : Act → Bool
  | .notify _ _ => true
  | _ => false

/-- `true` exactly on history date-update actions. -/
def Act.isHistoryUpdate : Act → Bool
  | .updateHistoryDate _ => true
  | _ => false

/-- `true` exactly on date-range store updates. -/
def Act.isStartDateUpdate : Act → Bool
  | .updateStartDate _ => true
  | _ => false

/-- Absolute difference of two timestamps. -/
def natDist (a b : Nat) : Nat := max a b - min a b

/-- Modelled from the spec: `findClosestDate` (in
`components/MapView/DateSelector/utils`, not part of this snapshot) picks
the candidate minimizing the absolute time difference to the target; an
empty candidate list is a defensive no-op returning the target unchanged;
on an exact tie the earlier-seen candidate is kept (spec 4.2 leaves the
tie-break open, so one deterministic rule is fixed here). -/
def findClosestDate (target : Nat) (candidates : List Nat) : Nat :=
  match candidates with
  | [] => target
  | c :: cs =>
      cs.foldl (fun best x => if natDist x target < natDist best target then x else best) c

/-- Modelled from the spec: `binaryIncludes` (in `./date-utils`, not part of
this snapshot) tests by binary search whether a date occurs in a sorted
candidate sequence under a caller-supplied key; on sorted input it
coincides with plain membership, which is the embedding used here.  In
`possibleDatesForLayerIncludeSelectedDate` the key normalizes each
`DateItem` and the probe to midday UTC. -/
def layerIncludesDate (l : Layer) (date : Nat) : Bool :=
  ((getPossibleDatesForLayer l).map
    (fun it => setUTCHoursMidday it.displayDate)).contains (setUTCHoursMidday date)

/-- Modelled from the spec: `datesAreEqualWithoutTime` (in `./date-utils`,
not part of this snapshot) compares two timestamps ignoring the time of
day, i.e. by calendar day. -/
def datesAreEqualWithoutTime (a b : Nat) : Bool := dayKey a == dayKey b

/-- `removeLayerAndUpdateHistory` of `useLayers`: with a date selected,
removes the conflicting layer from the URL and the store, then updates the
persisted date to the kept layer's closest available date. -/
def removeLayerAndUpdateHistory (layerToRemove layerToKeep : Layer)
    (selectedDate : Option Nat) : List Act :=
  match selectedDate with
  | none => []
  | some sd =>
      [Act.removeLayerFromUrl layerToRemove.id,
       Act.removeLayerById layerToRemove.id,
       Act.updateHistoryDate
         (findClosestDate sd
           ((getPossibleDatesForLayer layerToKeep).map (fun it => it.displayDate)))]

/-- The "no dates overlap" reconciliation effect of `useLayers`: when the
date intersection is empty while date-supporting layers are active and a
date is selected, it notifies and removes the second-to-last layer of the
selected-layer list, keeping the last.  `selectedLayers` is the sorted
selected-layer list, `dateLayers` its date-supporting sublist feeding the
intersection.  (Indexing out of range — fewer than two selected layers —
is a JS runtime error in the source; it is modelled as no action.) -/
def conflictEffect (selectedLayers dateLayers : List Layer)
    (selectedDate : Option Nat) : List Act :=
  if (selectedLayerDates dateLayers).length ≠ 0 ∨ dateLayers.length = 0 ∨
      selectedDate = none then []
  else
    match selectedLayers[selectedLayers.length - 2]?,
          selectedLayers[selectedLayers.length - 1]? with
    | some layerToRemove, some layerToKeep =>
        Act.notify
            ("No dates overlap with the selected layers. Removing previous layer: "
              ++ layerToRemove.id ++ ".") "warning"
          :: removeLayerAndUpdateHistory layerToRemove layerToKeep selectedDate
    | _, _ => []

/-- The date branch of the URL-loading effect: an absent date does nothing;
a parseable date differing from the selected one updates the date range and
the history; an unparseable date (`NaN`, never equal to anything and not
filtered by `Number.isNaN`'s negation) only dispatches the invalid-date
warning. -/
def dateActions (urlDate : UrlDate) (selectedDate : Option Nat) : List Act :=
  match urlDate with
  | .absent => []
  | .invalid => [Act.notify "Invalid date found. Using most recent date" "warning"]
  | .valid t =>
      if selectedDate = some (setUTCHoursMidday t) then []
      else
        [Act.updateStartDate (setUTCHoursMidday t),
         Act.updateHistoryDate (setUTCHoursMidday t)]

/-- `urlLayerIds`: the hazard and baseline layer ids of the URL, in order. -/
def urlLayerIds (hazardIds baselineIds : Option (List String)) : List String :=
  hazardIds.getD [] ++ baselineIds.getD []

/-- `invalidLayersIds`: the URL layer ids not present in `LayerDefinitions`
(whose key list is `layerDefIds`). -/
def invalidLayersIds (hazardIds baselineIds : Option (List String))
    (layerDefIds : List String) : List String :=
  (urlLayerIds hazardIds baselineIds).filter (fun i => !layerDefIds.contains i)

/-- `missingLayers`: the URL layer ids not yet in the selected-layer set. -/
def missingLayers (hazardIds baselineIds : Option (List String))
    (selectedLayersIds : List String) : List String :=
  (urlLayerIds hazardIds baselineIds).filter
    (fun i => !selectedLayersIds.contains i)

/-- The URL-loading effect of `useLayers`: guarded on the presence of layer
parameters and a non-empty server dates table; dispatches one error
notification and stops if any URL layer id is missing from
`LayerDefinitions`; otherwise adds the missing layers and processes the URL
date.  (`checkLayerAvailableDatesAndContinueOrRemove`, external to this
snapshot, is elided: each missing layer is added unconditionally.) -/
def urlLoadEffect (hazardIds baselineIds : Option (List String))
    (layerDefIds selectedLayersIds : List String) (serverDatesEmpty : Bool)
    (urlDate : UrlDate) (selectedDate : Option Nat) : List Act :=
  if (hazardIds.isNone && baselineIds.isNone) || serverDatesEmpty then []
  else if !(invalidLayersIds hazardIds baselineIds layerDefIds).isEmpty then
    [Act.notify
      ("Invalid layer identifier(s): " ++ String.intercalate ","
        (invalidLayersIds hazardIds baselineIds layerDefIds))
      "error"]
  else
    (missingLayers hazardIds baselineIds selectedLayersIds).map Act.addLayerById
      ++ dateActions urlDate selectedDate

/-- The per-layer "no data found" warning message of the out-of-range
effect (date formatting, external to this snapshot, is elided). -/
def noDataMessage (sd closest : Nat) (layer : Layer) : String :=
  "No data was found for layer " ++ layer.title ++ " on " ++ toString sd
    ++ ". The closest date " ++ toString closest ++ " has been loaded instead."

/-- The per-layer body of the out-of-range effect: a layer whose possible
dates do not include the selected date gets the closest date of the global
intersection; the history is updated unless the closest date shares the
selected date's calendar day (then only a console warning is logged,
modelled as `warnOnly`), and in either case the per-layer notification is
dispatched. -/
def outOfRangeLayerActions (dateLayers : List Layer) (serverDatesEmpty : Bool)
    (sd : Nat) (layer : Layer) : List Act :=
  if serverDatesEmpty || layerIncludesDate layer sd then []
  else
    (if datesAreEqualWithoutTime sd
          (findClosestDate sd (selectedLayerDates dateLayers)) then
        [Act.warnOnly]
      else
        [Act.updateHistoryDate
          (findClosestDate sd (selectedLayerDates dateLayers))])
      ++ [Act.notify
            (noDataMessage sd (findClosestDate sd (selectedLayerDates dateLayers))
              layer)
            "warning"]

/-- Sequencing of per-layer action lists (`forEach` over layers). -/
def forEachLayer (f : Layer → List Act) : List Layer → List Act
  | [] => []
  | l :: ls => f l ++ forEachLayer f ls

/-- The out-of-range reconciliation effect of `useLayers` (its final
`useEffect`): runs when a date is selected, a URL date is present, and the
raw URL timestamp differs from the selected date; iterates over all
date-supporting layers. -/
def outOfRangeEffect (dateLayers : List Layer) (serverDatesEmpty : Bool)
    (urlDateMs : Option Nat) (selectedDate : Option Nat) : List Act :=
  match selectedDate, urlDateMs with
  | some sd, some ud =>
      if ud = sd then []
      else forEachLayer (outOfRangeLayerActions dateLayers serverDatesEmpty sd) dateLayers
  | _, _ => []

theorem dedupKeys_mem {a : Nat} : ∀ {l : List Nat}, a ∈ dedupKeys l ↔ a ∈ l
  | [] => Iff.rfl
  | k :: rest => by
    simp only [dedupKeys, List.mem_cons, List.mem_filter]
    constructor
    · rintro (rfl | ⟨h, _⟩)
      · exact Or.inl rfl
      · exact Or.inr (dedupKeys_mem.mp h)
    · rintro (rfl | h)
      · exact Or.inl rfl
      · by_cases hak : a = k
        · exact Or.inl hak
        · exact Or.inr ⟨dedupKeys_mem.mpr h, by simpa using hak⟩

theorem dedupKeys_nodup : ∀ (l : List Nat), (dedupKeys l).Nodup
  | [] => List.nodup_nil
  | k :: rest => by
    simp only [dedupKeys, List.nodup_cons]
    refine ⟨fun hk => ?_, (dedupKeys_nodup rest).filter _⟩
    have := (List.mem_filter.mp hk).2
    simp at this

theorem middayUTC_inj : Function.Injective middayUTC := by
  intro a b h
  simpa [middayUTC, msPerDay] using h

theorem count_flatDays (d : Nat) :
    ∀ (ls : List Layer),
      (flatDays ls).count d = (ls.map (fun l => (layerDays l).count d)).sum
  | [] => rfl
  | l :: ls => by
    simp [flatDays, List.count_append, count_flatDays d ls]

theorem mem_flatDays {d : Nat} :
    ∀ {ls : List Layer}, d ∈ flatDays ls ↔ ∃ l ∈ ls, d ∈ layerDays l
  | [] => by simp [flatDays]
  | l :: ls => by
    simp only [flatDays, List.mem_append, mem_flatDays, List.mem_cons]
    constructor
    · rintro (h | ⟨l', hl', hd⟩)
      · exact ⟨l, Or.inl rfl, h⟩
      · exact ⟨l', Or.inr hl', hd⟩
    · rintro ⟨l', (rfl | hl'), hd⟩
      · exact Or.inl hd
      · exact Or.inr ⟨l', hl', hd⟩

theorem allDistinct_nodup : ∀ {l : List Nat}, allDistinct l = true → l.Nodup
  | [], _ => List.nodup_nil
  | x :: xs, h => by
    simp only [allDistinct, Bool.and_eq_true, Bool.not_eq_true'] at h
    exact List.nodup_cons.mpr ⟨by simpa using h.1, allDistinct_nodup h.2⟩

theorem sum_le_length_of_le_one :
    ∀ {cs : List Nat}, (∀ c ∈ cs, c ≤ 1) → cs.sum ≤ cs.length
  | [], _ => Nat.le_refl 0
  | c :: cs, h => by
    have hc : c ≤ 1 := h c (List.mem_cons_self c cs)
    have ih := sum_le_length_of_le_one (fun x hx => h x (List.mem_cons_of_mem c hx))
    simp only [List.sum_cons, List.length_cons]
    omega

theorem all_one_of_length_le_sum :
    ∀ {cs : List Nat}, (∀ c ∈ cs, c ≤ 1) → cs.length ≤ cs.sum →
      ∀ c ∈ cs, c = 1
  | [], _, _ => by simp
  | c :: cs, h, hlen => by
    have hc : c ≤ 1 := h c (List.mem_cons_self c cs)
    have hrest : ∀ x ∈ cs, x ≤ 1 := fun x hx => h x (List.mem_cons_of_mem c hx)
    have hsum : cs.sum ≤ cs.length := sum_le_length_of_le_one hrest
    simp only [List.sum_cons, List.length_cons] at hlen
    have hc1 : c = 1 := by omega
    have hlen' : cs.length ≤ cs.sum := by omega
    intro x hx
    rcases List.mem_cons.mp hx with rfl | hx'
    · exact hc1
    · exact all_one_of_length_le_sum hrest hlen' x hx'

theorem sum_lt_length_of_zero_mem :
    ∀ {cs : List Nat}, (∀ c ∈ cs, c ≤ 1) → 0 ∈ cs → cs.sum < cs.length
  | c :: cs, h, hz => by
    have hc : c ≤ 1 := h c (List.mem_cons_self c cs)
    have hrest : ∀ x ∈ cs, x ≤ 1 := fun x hx => h x (List.mem_cons_of_mem c hx)
    have hsum : cs.sum ≤ cs.length := sum_le_length_of_le_one hrest
    simp only [List.sum_cons, List.length_cons]
    rcases List.mem_cons.mp hz with hc0 | hz'
    · omega
    · have := sum_lt_length_of_zero_mem hrest hz'
      omega

/-- Membership characterization of the selectable-dates computation. -/
theorem mem_selectedLayerDates {layers : List Layer} {d : Nat} :
    middayUTC d ∈ selectedLayerDates layers ↔
      layers ≠ [] ∧ d ∈ flatDays layers ∧
        layers.length ≤ (flatDays layers).count d := by
  unfold selectedLayerDates
  by_cases hne : layers.length = 0
  · simp [hne, List.length_eq_zero.mp hne]
  · simp only [hne, if_false, List.mem_map, List.mem_filter, dedupKeys_mem,
      decide_eq_true_eq]
    constructor
    · rintro ⟨k, ⟨hkmem, hkcount⟩, hkeq⟩
      rcases middayUTC_inj hkeq
      exact ⟨fun h => hne (by simp [h]), hkmem, hkcount⟩
    · rintro ⟨_, hmem, hcount⟩
      exact ⟨d, ⟨hmem, hcount⟩, rfl⟩

theorem sum_eq_length_of_all_one :
    ∀ {cs : List Nat}, (∀ c ∈ cs, c = 1) → cs.sum = cs.length
  | [], _ => rfl
  | c :: cs, h => by
    have hc : c = 1 := h c (List.mem_cons_self c cs)
    have ih := sum_eq_length_of_all_one (fun x hx => h x (List.mem_cons_of_mem c hx))
    simp only [List.sum_cons, List.length_cons]
    omega

theorem count_le_one_of_all_distinct {layers : List Layer} (d : Nat)
    (hnd : layers.all (fun l => allDistinct (layerDays l)) = true) :
    ∀ c ∈ layers.map (fun l => (layerDays l).count d), c ≤ 1 := by
  intro c hc
  rcases List.mem_map.mp hc with ⟨l', hl', rfl⟩
  have hnodup : (layerDays l').Nodup := by
    have := List.all_eq_true.mp hnd l' hl'
    exact allDistinct_nodup (by simpa using this)
  exact List.nodup_iff_count_le_one.mp hnodup d

/-- Every member of the selectable-dates result is a midday-UTC conversion of
some day key. -/
theorem selectedLayerDates_shape {layers : List Layer} {t : Nat}
    (h : t ∈ selectedLayerDates layers) : ∃ d, t = middayUTC d := by
  unfold selectedLayerDates at h
  by_cases hn : layers.length = 0
  · simp [hn] at h
  · simp only [hn, if_false, List.mem_map] at h
    rcases h with ⟨k, -, rfl⟩
    exact ⟨k, rfl⟩

theorem middayUTC_mod (d : Nat) : middayUTC d % msPerDay = 43200000 := by
  unfold middayUTC msPerDay
  omega

/-- C1 as stated fails: a layer with two `DateItem`s on the same day inflates
the occurrence count, so a day held by only one of two layers reaches full
count.  Layer "a" covers days 0 and 1 (day 1 twice), layer "b" only day 0;
they share day 0 and both are non-empty, yet day 1 is selectable although
layer "b" has no `DateItem` on it. -/
theorem selectable_intersection_cex :
    ([⟨"a", "A", [⟨43200000⟩, ⟨129600000⟩, ⟨129600000⟩]⟩,
      ⟨"b", "B", [⟨43200000⟩]⟩] : List Layer).all
        (fun l => !l.dateItems.isEmpty) = true ∧
    ([⟨"a", "A", [⟨43200000⟩, ⟨129600000⟩, ⟨129600000⟩]⟩,
      ⟨"b", "B", [⟨43200000⟩]⟩] : List Layer).all
        (fun l => (layerDays l).contains 0) = true ∧
    middayUTC 1 ∈
      selectedLayerDates
        [⟨"a", "A", [⟨43200000⟩, ⟨129600000⟩, ⟨129600000⟩]⟩,
         ⟨"b", "B", [⟨43200000⟩]⟩] ∧
    (layerDays (⟨"b", "B", [⟨43200000⟩]⟩ : Layer)).contains 1 = false := by
  decide

/-- C1 (amended): for a non-empty layer set in which each layer has at least
one `DateItem`, all layers share a common day, and no layer has two
`DateItem`s on the same calendar day, the selectable-dates computation
returns exactly the shared days: a day is selectable iff every layer has a
`DateItem` on it. -/
theorem selectable_iff_every_layer (layers : List Layer) (d d0 : Nat)
    (hne : layers ≠ [])
    (hitems : layers.all (fun l => !l.dateItems.isEmpty) = true)
    (hshared : layers.all (fun l => (layerDays l).contains d0) = true)
    (hnd : layers.all (fun l => allDistinct (layerDays l)) = true) :
    middayUTC d ∈ selectedLayerDates layers ↔
      layers.all (fun l => (layerDays l).contains d) = true := by
  rw [mem_selectedLayerDates]
  constructor
  · rintro ⟨-, hmem, hcount⟩
    rw [List.all_eq_true]
    intro l hl
    have hle := count_le_one_of_all_distinct d hnd
    have hlen :
        (layers.map (fun l => (layerDays l).count d)).length ≤
          (layers.map (fun l => (layerDays l).count d)).sum := by
      rw [← count_flatDays, List.length_map]
      exact hcount
    have h1 :=
      all_one_of_length_le_sum hle hlen ((layerDays l).count d)
        (List.mem_map.mpr ⟨l, hl, rfl⟩)
    have hdl : d ∈ layerDays l := by
      by_contra hdl
      rw [List.count_eq_zero.mpr hdl] at h1
      omega
    simpa using hdl
  · intro hall
    have hmem1 : ∀ l ∈ layers, d ∈ layerDays l := by
      intro l hl
      simpa using List.all_eq_true.mp hall l hl
    have hone : ∀ c ∈ layers.map (fun l => (layerDays l).count d), c = 1 := by
      intro c hc
      rcases List.mem_map.mp hc with ⟨l', hl', rfl⟩
      have hle := count_le_one_of_all_distinct d hnd _ (List.mem_map.mpr ⟨l', hl', rfl⟩)
      have hpos : (layerDays l').count d ≠ 0 := fun h0 =>
        (List.count_eq_zero.mp h0) (hmem1 l' hl')
      omega
    refine ⟨hne, ?_, ?_⟩
    · cases layers with
      | nil => exact absurd rfl hne
      | cons l ls =>
        exact mem_flatDays.mpr ⟨l, List.mem_cons_self l ls, hmem1 l (List.mem_cons_self l ls)⟩
    · rw [count_flatDays, sum_eq_length_of_all_one hone, List.length_map]

/-- Witness for the amended C1 at a concrete two-layer input sharing day 0. -/
theorem selectable_iff_every_layer_witness :
    ([⟨"a", "A", [⟨43200000⟩]⟩, ⟨"b", "B", [⟨43200000⟩]⟩] : List Layer) ≠ [] ∧
    ([⟨"a", "A", [⟨43200000⟩]⟩, ⟨"b", "B", [⟨43200000⟩]⟩] : List Layer).all
      (fun l => !l.dateItems.isEmpty) = true ∧
    ([⟨"a", "A", [⟨43200000⟩]⟩, ⟨"b", "B", [⟨43200000⟩]⟩] : List Layer).all
      (fun l => (layerDays l).contains 0) = true ∧
    ([⟨"a", "A", [⟨43200000⟩]⟩, ⟨"b", "B", [⟨43200000⟩]⟩] : List Layer).all
      (fun l => allDistinct (layerDays l)) = true ∧
    (middayUTC 0 ∈
        selectedLayerDates [⟨"a", "A", [⟨43200000⟩]⟩, ⟨"b", "B", [⟨43200000⟩]⟩] ↔
      ([⟨"a", "A", [⟨43200000⟩]⟩, ⟨"b", "B", [⟨43200000⟩]⟩] : List Layer).all
        (fun l => (layerDays l).contains 0) = true) :=
  ⟨by decide, by decide, by decide, by decide,
    selectable_iff_every_layer _ 0 0 (by decide) (by decide) (by decide) (by decide)⟩

/-- C2 as stated fails: with two layers where layer "b" has zero `DateItem`s
but layer "a" lists day 0 twice, day 0 still reaches the full count of 2 and
the result is non-empty. -/
theorem empty_layer_cex :
    (⟨"b", "B", []⟩ : Layer).dateItems = [] ∧
    selectedLayerDates
        [⟨"a", "A", [⟨43200000⟩, ⟨43200000⟩]⟩, ⟨"b", "B", []⟩] =
      [middayUTC 0] := by
  decide

/-- C2 (amended): if no layer has two `DateItem`s on the same calendar day,
then a date-supporting layer with zero `DateItem`s forces the
selectable-dates computation to return the empty sequence. -/
theorem empty_layer_blocks_dates (layers : List Layer) (l0 : Layer)
    (hnd : layers.all (fun l => allDistinct (layerDays l)) = true)
    (hmem : l0 ∈ layers) (hempty : l0.dateItems = []) :
    selectedLayerDates layers = [] := by
  unfold selectedLayerDates
  by_cases h : layers.length = 0
  · simp [h]
  simp only [h, if_false, List.map_eq_nil_iff]
  rw [List.filter_eq_nil_iff]
  intro k hk
  simp only [decide_eq_true_eq]
  intro hcount
  have hle := count_le_one_of_all_distinct k hnd
  have hz : 0 ∈ layers.map (fun l => (layerDays l).count k) :=
    List.mem_map.mpr ⟨l0, hmem, by simp [layerDays, getPossibleDatesForLayer, hempty]⟩
  have hlt := sum_lt_length_of_zero_mem hle hz
  rw [count_flatDays] at hcount
  rw [List.length_map] at hlt
  omega

/-- Witness for the amended C2 at a concrete input with one empty layer. -/
theorem empty_layer_blocks_dates_witness :
    ([⟨"a", "A", [⟨43200000⟩]⟩, ⟨"b", "B", []⟩] : List Layer).all
      (fun l => allDistinct (layerDays l)) = true ∧
    (⟨"b", "B", []⟩ : Layer) ∈
      ([⟨"a", "A", [⟨43200000⟩]⟩, ⟨"b", "B", []⟩] : List Layer) ∧
    (⟨"b", "B", []⟩ : Layer).dateItems = [] ∧
    selectedLayerDates [⟨"a", "A", [⟨43200000⟩]⟩, ⟨"b", "B", []⟩] = [] :=
  ⟨by decide, by decide, by decide,
    empty_layer_blocks_dates [⟨"a", "A", [⟨43200000⟩]⟩, ⟨"b", "B", []⟩]
      ⟨"b", "B", []⟩ (by decide) (by decide) (by decide)⟩

/-- C8: with no active date-supporting layers the selectable-dates
computation returns the empty sequence. -/
theorem empty_layers_empty_dates : selectedLayerDates [] = [] := rfl

/-- C9: the selectable-dates result contains no duplicate timestamps — each
calendar day appears at most once, as days are collected as keys of the
per-day occurrence map and converted by the injective midday conversion. -/
theorem selectedLayerDates_nodup (layers : List Layer) :
    (selectedLayerDates layers).Nodup := by
  unfold selectedLayerDates
  by_cases h : layers.length = 0
  · simp [h]
  · simp only [h, if_false]
    exact ((dedupKeys_nodup _).filter _).map middayUTC_inj

/-- C7: every timestamp returned by the selectable-dates computation, and
every defined date integer derived from the URL date parameter, is
normalized to midday UTC (offset 43200000 ms within its day). -/
theorem midday_normalization (layers : List Layer) (u : UrlDate)
    (now t s : Nat) (h1 : t ∈ selectedLayerDates layers)
    (h2 : dateInt u now = some s) :
    t % msPerDay = 43200000 ∧ s % msPerDay = 43200000 := by
  constructor
  · rcases selectedLayerDates_shape h1 with ⟨d, rfl⟩
    exact middayUTC_mod d
  · cases u with
    | absent =>
      simp only [dateInt, Option.some.injEq] at h2
      rw [← h2]
      exact middayUTC_mod _
    | invalid => simp [dateInt] at h2
    | valid t' =>
      simp only [dateInt, Option.some.injEq] at h2
      rw [← h2]
      exact middayUTC_mod _

/-- Witness for C7 at a concrete layer set and URL date. -/
theorem midday_normalization_witness :
    43200000 ∈ selectedLayerDates [⟨"a", "A", [⟨43200000⟩]⟩] ∧
    dateInt (UrlDate.valid 100) 0 = some 43200000 ∧
    (43200000 % msPerDay = 43200000 ∧ 43200000 % msPerDay = 43200000) :=
  ⟨by decide, by decide,
    midday_normalization [⟨"a", "A", [⟨43200000⟩]⟩] (UrlDate.valid 100) 0
      43200000 43200000 (by decide) (by decide)⟩

/-- C3: when the date intersection is empty while at least two
date-supporting layers are active and a date is selected, the
reconciliation effect dispatches the warning naming the removed layer,
removes the second-to-last layer of the selected-layer list (the
second-most-recently-added) from the URL and the store, keeps the last
(most recently added), and snaps the persisted date to the kept layer's
closest available date. -/
theorem conflict_removes_second_last (selectedLayers dateLayers : List Layer)
    (sd : Nat) (r k : Layer)
    (hdates : selectedLayerDates dateLayers = [])
    (hcount : 2 ≤ dateLayers.length)
    (hr : selectedLayers[selectedLayers.length - 2]? = some r)
    (hk : selectedLayers[selectedLayers.length - 1]? = some k) :
    conflictEffect selectedLayers dateLayers (some sd) =
      [Act.notify
        ("No dates overlap with the selected layers. Removing previous layer: "
          ++ r.id ++ ".") "warning",
       Act.removeLayerFromUrl r.id,
       Act.removeLayerById r.id,
       Act.updateHistoryDate
         (findClosestDate sd
           ((getPossibleDatesForLayer k).map (fun it => it.displayDate)))] := by
  have hguard : ¬ ((selectedLayerDates dateLayers).length ≠ 0 ∨
      dateLayers.length = 0 ∨ (some sd : Option Nat) = none) := by
    rintro (h | h | h)
    · exact h (by rw [hdates]; rfl)
    · omega
    · exact Option.some_ne_none sd h
  unfold conflictEffect
  rw [if_neg hguard, hr, hk]
  rfl

/-- Witness for C3: two layers with disjoint days conflict; the first is
removed and the date snaps to the kept layer's only date. -/
theorem conflict_removes_second_last_witness :
    selectedLayerDates
        [⟨"a", "A", [⟨43200000⟩]⟩, ⟨"b", "B", [⟨129600000⟩]⟩] = [] ∧
    2 ≤ ([⟨"a", "A", [⟨43200000⟩]⟩, ⟨"b", "B", [⟨129600000⟩]⟩] : List Layer).length ∧
    conflictEffect
        [⟨"a", "A", [⟨43200000⟩]⟩, ⟨"b", "B", [⟨129600000⟩]⟩]
        [⟨"a", "A", [⟨43200000⟩]⟩, ⟨"b", "B", [⟨129600000⟩]⟩]
        (some 43200000) =
      [Act.notify
        ("No dates overlap with the selected layers. Removing previous layer: "
          ++ (⟨"a", "A", [⟨43200000⟩]⟩ : Layer).id ++ ".") "warning",
       Act.removeLayerFromUrl (⟨"a", "A", [⟨43200000⟩]⟩ : Layer).id,
       Act.removeLayerById (⟨"a", "A", [⟨43200000⟩]⟩ : Layer).id,
       Act.updateHistoryDate
         (findClosestDate 43200000
           ((getPossibleDatesForLayer (⟨"b", "B", [⟨129600000⟩]⟩ : Layer)).map
             (fun it => it.displayDate)))] :=
  ⟨by decide, by decide,
    conflict_removes_second_last
      [⟨"a", "A", [⟨43200000⟩]⟩, ⟨"b", "B", [⟨129600000⟩]⟩]
      [⟨"a", "A", [⟨43200000⟩]⟩, ⟨"b", "B", [⟨129600000⟩]⟩]
      43200000 ⟨"a", "A", [⟨43200000⟩]⟩ ⟨"b", "B", [⟨129600000⟩]⟩
      (by decide) (by decide) (by decide) (by decide)⟩

/-- C5: a URL layer id absent from `LayerDefinitions` makes the URL-loading
effect dispatch exactly one error notification naming the invalid ids, and
no layer is added to the active set in that pass. -/
theorem invalid_layer_id_dropped (hazardIds baselineIds : Option (List String))
    (layerDefIds selectedLayersIds : List String) (urlDate : UrlDate)
    (selectedDate : Option Nat) (badId : String)
    (hparams : hazardIds.isSome = true ∨ baselineIds.isSome = true)
    (hmem : badId ∈ hazardIds.getD [] ++ baselineIds.getD [])
    (hbad : layerDefIds.contains badId = false) :
    urlLoadEffect hazardIds baselineIds layerDefIds selectedLayersIds false
        urlDate selectedDate =
      [Act.notify
        ("Invalid layer identifier(s): " ++ String.intercalate ","
          (invalidLayersIds hazardIds baselineIds layerDefIds))
        "error"] ∧
    Act.addLayerById badId ∉
      urlLoadEffect hazardIds baselineIds layerDefIds selectedLayersIds false
        urlDate selectedDate := by
  have hg : (hazardIds.isNone && baselineIds.isNone) = false := by
    rcases hparams with h | h
    · cases hazardIds <;> simp_all
    · cases baselineIds <;> simp_all
  have hinv : invalidLayersIds hazardIds baselineIds layerDefIds ≠ [] := by
    unfold invalidLayersIds
    exact List.ne_nil_of_mem (List.mem_filter.mpr ⟨hmem, by simpa using hbad⟩)
  have hempty :
      (invalidLayersIds hazardIds baselineIds layerDefIds).isEmpty = false := by
    cases hcase : invalidLayersIds hazardIds baselineIds layerDefIds with
    | nil => exact absurd hcase hinv
    | cons a l => rfl
  have heq : urlLoadEffect hazardIds baselineIds layerDefIds selectedLayersIds
      false urlDate selectedDate =
      [Act.notify
        ("Invalid layer identifier(s): " ++ String.intercalate ","
          (invalidLayersIds hazardIds baselineIds layerDefIds))
        "error"] := by
    unfold urlLoadEffect
    rw [if_neg (by simp [hg]), if_pos (by simp [hempty])]
  refine ⟨heq, ?_⟩
  rw [heq]
  simp

/-- Witness for C5 with the single invalid id "bad". -/
theorem invalid_layer_id_dropped_witness :
    ((some ["bad"] : Option (List String)).isSome = true ∨
      (none : Option (List String)).isSome = true) ∧
    "bad" ∈ (some ["bad"] : Option (List String)).getD [] ++
      (none : Option (List String)).getD [] ∧
    (["good"].contains "bad") = false ∧
    (urlLoadEffect (some ["bad"]) none ["good"] [] false UrlDate.absent none =
      [Act.notify
        ("Invalid layer identifier(s): " ++ String.intercalate ","
          (invalidLayersIds (some ["bad"]) none ["good"]))
        "error"] ∧
    Act.addLayerById "bad" ∉
      urlLoadEffect (some ["bad"]) none ["good"] [] false UrlDate.absent none) :=
  ⟨by decide, by decide, by decide,
    invalid_layer_id_dropped (some ["bad"]) none ["good"] [] UrlDate.absent none
      "bad" (by decide) (by decide) (by decide)⟩

/-- C6 as stated fails: for an unparseable URL date the effect dispatches
the invalid-date warning but issues NO date update — the selected-date
state is never set, so the effect consists of the notification alone. -/
theorem invalid_date_cex :
    urlLoadEffect (some ["lay"]) none ["lay"] ["lay"] false UrlDate.invalid
        (some 99) =
      [Act.notify "Invalid date found. Using most recent date" "warning"] ∧
    (urlLoadEffect (some ["lay"]) none ["lay"] ["lay"] false UrlDate.invalid
        (some 99)).filter Act.isStartDateUpdate = [] := by
  decide

/-- No action produced by adding layers is a date-range update. -/
theorem filter_startDate_map_add (l : List String) :
    (l.map Act.addLayerById).filter Act.isStartDateUpdate = [] := by
  induction l with
  | nil => rfl
  | cons a l ih => simp [Act.isStartDateUpdate, ih]

/-- C6 (amended): for an unparseable URL date — with layer parameters
present, server dates loaded and all URL layer ids valid — the effect
dispatches the invalid-date warning and issues no date update at all: the
selected-date state is left at its previous value (the default most-recent
date) rather than being set to the invalid value. -/
theorem invalid_date_notifies_only (hazardIds baselineIds : Option (List String))
    (layerDefIds selectedLayersIds : List String) (selectedDate : Option Nat)
    (hparams : hazardIds.isSome = true ∨ baselineIds.isSome = true)
    (hvalid : (invalidLayersIds hazardIds baselineIds layerDefIds) = []) :
    Act.notify "Invalid date found. Using most recent date" "warning" ∈
      urlLoadEffect hazardIds baselineIds layerDefIds selectedLayersIds false
        UrlDate.invalid selectedDate ∧
    (urlLoadEffect hazardIds baselineIds layerDefIds selectedLayersIds false
        UrlDate.invalid selectedDate).filter Act.isStartDateUpdate = [] := by
  have hg : (hazardIds.isNone && baselineIds.isNone) = false := by
    rcases hparams with h | h
    · cases hazardIds <;> simp_all
    · cases baselineIds <;> simp_all
  have heq : urlLoadEffect hazardIds baselineIds layerDefIds selectedLayersIds
      false UrlDate.invalid selectedDate =
      (missingLayers hazardIds baselineIds selectedLayersIds).map
          Act.addLayerById
        ++ [Act.notify "Invalid date found. Using most recent date" "warning"] := by
    unfold urlLoadEffect
    rw [if_neg (by simp [hg]), if_neg (by simp [hvalid])]
    rfl
  rw [heq]
  refine ⟨List.mem_append_right _ (List.mem_singleton.mpr rfl), ?_⟩
  rw [List.filter_append, filter_startDate_map_add]
  rfl

/-- Witness for the amended C6 at a concrete input with a valid layer id. -/
theorem invalid_date_notifies_only_witness :
    ((some ["x"] : Option (List String)).isSome = true ∨
      (none : Option (List String)).isSome = true) ∧
    invalidLayersIds (some ["x"]) none ["x"] = [] ∧
    (Act.notify "Invalid date found. Using most recent date" "warning" ∈
      urlLoadEffect (some ["x"]) none ["x"] ["x"] false UrlDate.invalid
        (some 5) ∧
    (urlLoadEffect (some ["x"]) none ["x"] ["x"] false UrlDate.invalid
        (some 5)).filter Act.isStartDateUpdate = []) :=
  ⟨by decide, by decide,
    invalid_date_notifies_only (some ["x"]) none ["x"] ["x"] (some 5)
      (by decide) (by decide)⟩

/-- C4 as stated fails: with two active layers both lacking the selected
date, one synchronous pass issues the snap-and-notify pair for BOTH layers
(two history updates, two notifications), not only for the first
mismatching layer. -/
theorem first_mismatch_only_cex :
    outOfRangeEffect
        [⟨"a", "A", [⟨43200000⟩]⟩, ⟨"b", "B", [⟨43200000⟩]⟩] false (some 5)
        (some 216000000) =
      [Act.updateHistoryDate 43200000,
       Act.notify (noDataMessage 216000000 43200000 ⟨"a", "A", [⟨43200000⟩]⟩)
         "warning",
       Act.updateHistoryDate 43200000,
       Act.notify (noDataMessage 216000000 43200000 ⟨"b", "B", [⟨43200000⟩]⟩)
         "warning"] := by
  decide

/-- The notification a single layer contributes to the out-of-range pass:
nothing when its dates include the selected date, its "no data" warning
otherwise. -/
theorem filter_notify_layer (D : List Layer) (sd : Nat) (l : Layer) :
    (outOfRangeLayerActions D false sd l).filter Act.isNotify =
      if layerIncludesDate l sd then []
      else
        [Act.notify
          (noDataMessage sd (findClosestDate sd (selectedLayerDates D)) l)
          "warning"] := by
  unfold outOfRangeLayerActions
  by_cases h : layerIncludesDate l sd
  · simp [h]
  · by_cases h2 :
        datesAreEqualWithoutTime sd (findClosestDate sd (selectedLayerDates D))
    · simp [h, h2, Act.isNotify]
    · simp [h, h2, Act.isNotify]

/-- C4 (amended): the out-of-range pass processes layers in selected-layer
iteration order and EVERY mismatching layer — not only the first — triggers
the snap-and-notify action: the dispatched notifications are exactly those
of the mismatching layers, in order, each built from the same nearest date
taken from the global intersection. -/
theorem every_mismatching_layer_notifies (dateLayers : List Layer)
    (sd ud : Nat) (hne : ud ≠ sd) :
    (outOfRangeEffect dateLayers false (some ud) (some sd)).filter
        Act.isNotify =
      (dateLayers.filter (fun l => !layerIncludesDate l sd)).map
        (fun l =>
          Act.notify
            (noDataMessage sd (findClosestDate sd (selectedLayerDates dateLayers)) l)
            "warning") := by
  have hred : outOfRangeEffect dateLayers false (some ud) (some sd) =
      forEachLayer (outOfRangeLayerActions dateLayers false sd) dateLayers := by
    unfold outOfRangeEffect
    simp [hne]
  rw [hred]
  suffices h : ∀ ls : List Layer,
      (forEachLayer (outOfRangeLayerActions dateLayers false sd) ls).filter
          Act.isNotify =
        (ls.filter (fun l => !layerIncludesDate l sd)).map
          (fun l =>
            Act.notify
              (noDataMessage sd (findClosestDate sd (selectedLayerDates dateLayers)) l)
              "warning") from h dateLayers
  intro ls
  induction ls with
  | nil => rfl
  | cons l ls ih =>
    rw [forEachLayer, List.filter_append, ih, filter_notify_layer]
    by_cases h : layerIncludesDate l sd
    · simp [h, List.filter_cons]
    · simp [h, List.filter_cons]

/-- Witness for the amended C4 with one mismatching layer. -/
theorem every_mismatching_layer_notifies_witness :
    (0 : Nat) ≠ 129600000 ∧
    (outOfRangeEffect [⟨"c", "C", [⟨43200000⟩]⟩] false (some 0)
        (some 129600000)).filter Act.isNotify =
      (([⟨"c", "C", [⟨43200000⟩]⟩] : List Layer).filter
          (fun l => !layerIncludesDate l 129600000)).map
        (fun l =>
          Act.notify
            (noDataMessage 129600000
              (findClosestDate 129600000
                (selectedLayerDates [⟨"c", "C", [⟨43200000⟩]⟩])) l)
            "warning") :=
  ⟨by decide,
    every_mismatching_layer_notifies [⟨"c", "C", [⟨43200000⟩]⟩] 129600000 0
      (by decide)⟩

/-- When the nearest date of the intersection shares the selected date's
calendar day, a single layer contributes no history update. -/
theorem filter_history_layer_same (D : List Layer) (sd : Nat) (l : Layer)
    (hsame : datesAreEqualWithoutTime sd
      (findClosestDate sd (selectedLayerDates D)) = true) :
    (outOfRangeLayerActions D false sd l).filter Act.isHistoryUpdate = [] := by
  unfold outOfRangeLayerActions
  by_cases h : layerIncludesDate l sd
  · simp [h]
  · simp [h, hsame, Act.isHistoryUpdate, Act.isNotify]

/-- A per-layer pass whose every layer contributes no matching action has
no matching action overall. -/
theorem filter_forEach_nil (f : Layer → List Act) (p : Act → Bool) :
    ∀ (ls : List Layer), (∀ l ∈ ls, (f l).filter p = []) →
      (forEachLayer f ls).filter p = []
  | [], _ => rfl
  | l :: ls, h => by
    rw [forEachLayer, List.filter_append,
      h l (List.mem_cons_self l ls),
      filter_forEach_nil f p ls (fun x hx => h x (List.mem_cons_of_mem l hx))]
    rfl

/-- An action contributed by a member layer occurs in the per-layer pass. -/
theorem mem_forEachLayer {f : Layer → List Act} {a : Act} :
    ∀ {ls : List Layer}, ∀ l0 ∈ ls, a ∈ f l0 → a ∈ forEachLayer f ls
  | l :: ls, l0, hmem, ha => by
    rw [forEachLayer]
    rcases List.mem_cons.mp hmem with rfl | hmem'
    · exact List.mem_append_left _ ha
    · exact List.mem_append_right _ (mem_forEachLayer l0 hmem' ha)

/-- C10: in the out-of-range snap step, when the nearest valid date equals
the selected date by calendar day, no URL/history date update is issued,
while the per-layer "no data found" notification is still dispatched for a
mismatching layer. -/
theorem same_day_skips_history_update (dateLayers : List Layer)
    (sd ud : Nat) (l0 : Layer)
    (hne : ud ≠ sd)
    (hsame : datesAreEqualWithoutTime sd
      (findClosestDate sd (selectedLayerDates dateLayers)) = true)
    (hmem : l0 ∈ dateLayers)
    (hmis : layerIncludesDate l0 sd = false) :
    (outOfRangeEffect dateLayers false (some ud) (some sd)).filter
        Act.isHistoryUpdate = [] ∧
    Act.notify
        (noDataMessage sd (findClosestDate sd (selectedLayerDates dateLayers)) l0)
        "warning" ∈
      outOfRangeEffect dateLayers false (some ud) (some sd) := by
  have hred : outOfRangeEffect dateLayers false (some ud) (some sd) =
      forEachLayer (outOfRangeLayerActions dateLayers false sd) dateLayers := by
    unfold outOfRangeEffect
    simp [hne]
  rw [hred]
  constructor
  · exact filter_forEach_nil _ _ dateLayers
      (fun l _ => filter_history_layer_same dateLayers sd l hsame)
  · refine mem_forEachLayer l0 hmem ?_
    unfold outOfRangeLayerActions
    simp [hmis, hsame]

/-- Witness for C10: layer "b" lacks the selected day while the
intersection's nearest date shares it, thanks to layer "a" listing day 1
twice; no history update is issued but "b" is still notified. -/
theorem same_day_skips_history_update_witness :
    (0 : Nat) ≠ 100000000 ∧
    datesAreEqualWithoutTime 100000000
      (findClosestDate 100000000
        (selectedLayerDates
          [⟨"a", "A", [⟨129600000⟩, ⟨129600000⟩]⟩, ⟨"b", "B", [⟨43200000⟩]⟩])) = true ∧
    (⟨"b", "B", [⟨43200000⟩]⟩ : Layer) ∈
      ([⟨"a", "A", [⟨129600000⟩, ⟨129600000⟩]⟩, ⟨"b", "B", [⟨43200000⟩]⟩] : List Layer) ∧
    layerIncludesDate ⟨"b", "B", [⟨43200000⟩]⟩ 100000000 = false ∧
    ((outOfRangeEffect
        [⟨"a", "A", [⟨129600000⟩, ⟨129600000⟩]⟩, ⟨"b", "B", [⟨43200000⟩]⟩]
        false (some 0) (some 100000000)).filter Act.isHistoryUpdate = [] ∧
    Act.notify
        (noDataMessage 100000000
          (findClosestDate 100000000
            (selectedLayerDates
              [⟨"a", "A", [⟨129600000⟩, ⟨129600000⟩]⟩, ⟨"b", "B", [⟨43200000⟩]⟩]))
          ⟨"b", "B", [⟨43200000⟩]⟩)
        "warning" ∈
      outOfRangeEffect
        [⟨"a", "A", [⟨129600000⟩, ⟨129600000⟩]⟩, ⟨"b", "B", [⟨43200000⟩]⟩]
        false (some 0) (some 100000000)) :=
  ⟨by decide, by decide, by decide, by decide,
    same_day_skips_history_update
      [⟨"a", "A", [⟨129600000⟩, ⟨129600000⟩]⟩, ⟨"b", "B", [⟨43200000⟩]⟩]
      100000000 0 ⟨"b", "B", [⟨43200000⟩]⟩
      (by decide) (by decide) (by decide) (by decide)⟩
